import Mathlib

/-!
Shallow embedding of the ledger and transfer logic of the Banking repository.

The repository contains two competing implementations of the banking service:
- `src/banking-app/src/services/bankingService.js` (Clerk-metadata backed);
  its `transferMoney(user, fromAccountId, toAccountId, amount, description)`
  is embedded here as `transferClerk`.
- `src/unnamed/part_006` (localStorage backed; duplicated as the second half
  of `src/banking-app/src/services/cardService.js`); its
  `transferMoney(user, options)` is embedded here as `transferStore`.

Money values are modelled as rationals.  Generated identifiers and timestamps
(`Date.now()`, `new Date().toISOString()`) are passed in as explicit
parameters; dates are modelled as integers (epoch values), which is what the
JavaScript sort comparator `new Date(b.date) - new Date(a.date)` computes on.
-/

namespace Banking

/-- An account as used by the transfer logic: descriptive metadata fields of
the JavaScript objects that no claim depends on are elided. -/
structure Account where
  id : String
  balance : ℚ
  deriving Repr, DecidableEq

/-- A ledger transaction record.  The union of the fields produced by the
various code paths; fields a given path does not set are `none`. -/
structure Txn where
  id : String
  type : String
  amount : ℚ
  description : String
  fromAccount : Option String := none
  toAccount : Option String := none
  category : Option String := none
  paymentMethodId : Option String := none
  date : Int := 0
  status : Option String := none
  deriving Repr, DecidableEq

/-- The per-owner persisted blob `{ accounts, transactions }`. -/
structure BankData where
  accounts : List Account
  transactions : List Txn
  deriving Repr, DecidableEq

/-- Result of a transfer call: the JavaScript functions return an object with
`success: true` or `success: false` plus an error message. -/
inductive TransferOutcome where
  | ok
  | err (msg : String)
  deriving Repr, DecidableEq

/-- `accounts.find(acc => acc.id === accountId)`. -/
def findAccount (accounts : List Account) (accountId : String) : Option Account :=
  accounts.find? (fun a => a.id == accountId)

/-- Balance of the first account carrying the given id, if any. -/
def findBalance (data : BankData) (accountId : String) : Option ℚ :=
  (findAccount data.accounts accountId).map (fun a => a.balance)

/-- In-place mutation of the balance of the object returned by `find`:
the first element of the list whose id matches gets `delta` added to its
balance, everything else is untouched. -/
def updateBalanceFirst (accounts : List Account) (accountId : String) (delta : ℚ) :
    List Account :=
  match accounts with
  | [] => []
  | a :: rest =>
      if a.id == accountId then { a with balance := a.balance + delta } :: rest
      else a :: updateBalanceFirst rest accountId delta

/-- `transferMoney` of `bankingService.js` (lines 104-162): find both
accounts, reject when one is missing or the source balance is below the
amount, otherwise debit the source, credit the destination and push two
transaction records whose ids share the correlation id `tid`. -/
def transferClerk (data : BankData) (fromAccountId toAccountId : String) (amount : ℚ)
    (description : String) (tid : String) (now : Int) : TransferOutcome × BankData :=
  match findAccount data.accounts fromAccountId, findAccount data.accounts toAccountId with
  | none, _ => (.err "Account not found", data)
  | some _, none => (.err "Account not found", data)
  | some fromAccount, some _ =>
      if fromAccount.balance < amount then (.err "Insufficient funds", data)
      else
        let accounts1 :=
          updateBalanceFirst (updateBalanceFirst data.accounts fromAccountId (-amount))
            toAccountId amount
        let debitTxn : Txn :=
          { id := tid ++ "-debit", type := "debit", amount := amount,
            description := description, fromAccount := some fromAccountId,
            toAccount := some toAccountId, date := now, status := some "completed" }
        let creditTxn : Txn :=
          { id := tid ++ "-credit", type := "credit", amount := amount,
            description := description, fromAccount := some fromAccountId,
            toAccount := some toAccountId, date := now, status := some "completed" }
        (.ok, { accounts := accounts1,
                transactions := data.transactions ++ [debitTxn, creditTxn] })

/-- The options object taken by `transferMoney` of `part_006`.  A field that
the caller omits is `none`. -/
structure TransferOptions where
  fromAccountId : Option String := none
  toAccountId : Option String := none
  recipientEmail : Option String := none
  amount : ℚ
  description : Option String := none
  paymentMethodId : Option String := none
  deriving Repr, DecidableEq

/-- The description suffix `description ? ': ' + description : ''`; an empty
string is falsy in JavaScript. -/
def descSuffix : Option String → String
  | none => ""
  | some s => if s = "" then "" else ": " ++ s

/-- `description || 'Internal Transfer'`. -/
def descOrDefault : Option String → String
  | none => "Internal Transfer"
  | some s => if s = "" then "Internal Transfer" else s

/-- `transferMoney` of `part_006` (lines 114-244): validate `amount > 0`,
then dispatch on which option fields are present: card payment (payment
method id and recipient email), internal transfer (both account ids),
external transfer (recipient email), otherwise an error.  The card and
external branches only prepend one transaction with a negated amount; the
internal branch moves the balance and prepends one transaction. -/
def transferStore (data : BankData) (o : TransferOptions) (now : Int) :
    TransferOutcome × BankData :=
  if o.amount ≤ 0 then (.err "Invalid transfer parameters", data)
  else
    match o.paymentMethodId, o.recipientEmail with
    | some pmid, some email =>
        let txn : Txn :=
          { id := "card-transfer-" ++ toString now, type := "card_payment",
            amount := -o.amount,
            description := "Card payment to " ++ email ++ descSuffix o.description,
            category := some "Card Payment", paymentMethodId := some pmid, date := now }
        (.ok, { data with transactions := txn :: data.transactions })
    | _, _ =>
        match o.fromAccountId, o.toAccountId with
        | some fromId, some toId =>
            (match findAccount data.accounts fromId, findAccount data.accounts toId with
            | none, _ => (.err "One or both accounts not found", data)
            | some _, none => (.err "One or both accounts not found", data)
            | some fromAccount, some _ =>
                if fromAccount.balance < o.amount then (.err "Insufficient funds", data)
                else
                  let accounts1 :=
                    updateBalanceFirst (updateBalanceFirst data.accounts fromId (-o.amount))
                      toId o.amount
                  let txn : Txn :=
                    { id := "tr-" ++ toString now, type := "transfer", amount := o.amount,
                      description := descOrDefault o.description,
                      fromAccount := some fromId, toAccount := some toId,
                      date := now, status := some "completed" }
                  (.ok, { accounts := accounts1, transactions := txn :: data.transactions }))
        | _, _ =>
            match o.recipientEmail with
            | some email =>
                let txn : Txn :=
                  { id := "transfer-" ++ toString now, type := "external_transfer",
                    amount := -o.amount,
                    description := "Transfer to " ++ email ++ descSuffix o.description,
                    category := some "Transfer", date := now }
                (.ok, { data with transactions := txn :: data.transactions })
            | none =>
                (.err
                  "Invalid transfer parameters: must provide either account IDs, recipient email, or payment method",
                  data)

/-- `getAccountBalance` of `bankingService.js` / `part_006`: a null user is
an error; otherwise fold the transaction list starting from the fixed base
balance 1000, adding credit amounts and subtracting everything else. -/
def balanceStep (total : ℚ) (t : Txn) : ℚ :=
  if t.type = "credit" then total + t.amount else total - t.amount

/-- The full `getAccountBalance(user)` over the persisted state. -/
def getAccountBalance (user : Option String) (data : BankData) : Except String ℚ :=
  match user with
  | none => .error "User not found"
  | some _ => .ok (data.transactions.foldl balanceStep 1000)

/-- The digit sequence of a card number: `cardNumber.replace(/\D/g, '')`,
each digit taken at its numeric value. -/
def luhnDigits (s : String) : List Nat :=
  (s.data.filter Char.isDigit).map (fun c => c.toNat - 48)

/-- The Luhn loop of `isValidCardNumber`: the digits are supplied here
right-to-left, the flag says whether the current digit is doubled (it starts
false at the rightmost digit and toggles at every step), and a doubled digit
exceeding 9 has 9 subtracted. -/
def luhnSum : List Nat → Bool → Nat
  | [], _ => 0
  | d :: ds, dbl =>
      (if dbl then (if d * 2 > 9 then d * 2 - 9 else d * 2) else d) + luhnSum ds (!dbl)

/-- `isValidCardNumber` of `cardService.js` (lines 51-73): the Luhn total of
the digit string must be divisible by 10. -/
def isValidCardNumber (s : String) : Bool :=
  luhnSum (luhnDigits s).reverse false % 10 == 0

/-- The card data submitted by the add-card form of `DebitCards.jsx`. -/
structure CardInput where
  cardNumber : String
  cardholderName : String
  expiryDate : String
  cvv : String
  deriving Repr, DecidableEq

/-- The card record persisted by `addDebitCard`: the object
`{ id, lastFourDigits, ...cardData }` after `delete newCard.cardNumber`.
The spread copies every submitted field, and only `cardNumber` is deleted
afterwards, so the `cvv` field of the input survives in the stored record. -/
structure StoredCard where
  id : String
  lastFourDigits : String
  cardholderName : String
  expiryDate : String
  cvv : String
  deriving Repr, DecidableEq

/-- Result of an `addDebitCard` call. -/
inductive AddCardOutcome where
  | ok (card : StoredCard)
  | err (msg : String)
  deriving Repr, DecidableEq

/-- `cardNumber.slice(-4)`: the last four characters (the whole string when
it is shorter than four characters). -/
def lastFour (s : String) : String :=
  String.mk (s.data.drop (s.data.length - 4))

/-- `addDebitCard` of `cardService.js` (lines 76-122): reject the card when
the Luhn check fails, otherwise push the new record onto the stored card
list. -/
def addDebitCard (cards : List StoredCard) (input : CardInput) (now : String) :
    AddCardOutcome × List StoredCard :=
  if isValidCardNumber input.cardNumber then
    let newCard : StoredCard :=
      { id := now, lastFourDigits := lastFour input.cardNumber,
        cardholderName := input.cardholderName, expiryDate := input.expiryDate,
        cvv := input.cvv }
    (.ok newCard, cards ++ [newCard])
  else (.err "Invalid card number", cards)

/-- The record `addDebitCard` persists for a given input. -/
def storedCardOf (input : CardInput) (now : String) : StoredCard :=
  { id := now, lastFourDigits := lastFour input.cardNumber,
    cardholderName := input.cardholderName, expiryDate := input.expiryDate,
    cvv := input.cvv }

/-- Sum of the amounts of the credit transactions of a log. -/
def creditSum (txs : List Txn) : ℚ :=
  ((txs.filter fun t => t.type == "credit").map fun t => t.amount).sum

/-- Sum of the amounts of the non-credit transactions of a log. -/
def nonCreditSum (txs : List Txn) : ℚ :=
  ((txs.filter fun t => !(t.type == "credit")).map fun t => t.amount).sum

/-- The sort order of `sort((a, b) => new Date(b.date) - new Date(a.date))`:
descending date. -/
def txGe (a b : Txn) : Prop := b.date ≤ a.date

instance : DecidableRel txGe := fun a b => inferInstanceAs (Decidable (b.date ≤ a.date))

instance : IsTotal Txn txGe := ⟨fun a b => le_total b.date a.date⟩

instance : IsTrans Txn txGe := ⟨fun _ _ _ h1 h2 => le_trans h2 h1⟩

/-- The stable JavaScript sort by date descending. -/
def sortByDateDesc (txs : List Txn) : List Txn := List.insertionSort txGe txs

/-- The object returned by `getRecentTransactions`. -/
structure PageResult where
  transactions : List Txn
  totalCount : Nat
  currentPage : Nat
  totalPages : Nat
  deriving Repr, DecidableEq

/-- The transaction list `getRecentTransactions` operates on: when the
stored list is empty it is replaced by `generateMockTransactions()`, whose
output is random and is therefore modelled as the parameter `mocks`. -/
def effectiveTxs (data : BankData) (mocks : List Txn) : List Txn :=
  if data.transactions.isEmpty then mocks else data.transactions

/-- `getRecentTransactions` of `part_006` (lines 463-495, duplicated in
`cardService.js` lines 713-744): sort by date descending, slice the page
`[(page-1)*limit, (page-1)*limit + limit)`, and report the total count and
`Math.ceil(totalCount / limit)` pages. -/
def getRecentTransactions (data : BankData) (mocks : List Txn) (page limit : Nat) :
    PageResult :=
  let txs := effectiveTxs data mocks
  let sorted := sortByDateDesc txs
  let startIndex := (page - 1) * limit
  { transactions := (sorted.drop startIndex).take limit,
    totalCount := txs.length,
    currentPage := page,
    totalPages := (txs.length + limit - 1) / limit }

/-! ### Lemmas about `findAccount` and `updateBalanceFirst` -/

theorem findAccount_updateBalanceFirst_self (accounts : List Account) (accountId : String)
    (delta : ℚ) :
    findAccount (updateBalanceFirst accounts accountId delta) accountId =
      (findAccount accounts accountId).map (fun a => { a with balance := a.balance + delta }) := by
  induction accounts with
  | nil => rfl
  | cons a rest ih =>
    by_cases h : a.id == accountId
    · simp [findAccount, updateBalanceFirst, List.find?, h]
    · simp only [updateBalanceFirst, h, if_neg, Bool.false_eq_true, not_false_eq_true]
      simp only [findAccount, List.find?] at ih ⊢
      simp [h, ih]

theorem findAccount_updateBalanceFirst_ne (accounts : List Account)
    (accountId otherId : String) (delta : ℚ) (h : otherId ≠ accountId) :
    findAccount (updateBalanceFirst accounts accountId delta) otherId =
      findAccount accounts otherId := by
  induction accounts with
  | nil => rfl
  | cons a rest ih =>
    by_cases ha : a.id == accountId
    · have ha2 : a.id = accountId := by simpa using ha
      have hne : ¬(a.id == otherId) := by
        simp only [beq_iff_eq, ha2]
        exact fun hc => h hc.symm
      simp [findAccount, updateBalanceFirst, List.find?, ha, hne]
    · simp only [updateBalanceFirst, ha, Bool.false_eq_true, not_false_eq_true, if_neg]
      simp only [findAccount, List.find?] at ih ⊢
      cases hb : a.id == otherId
      · simpa [hb] using ih
      · simp [hb]

theorem updateBalanceFirst_same (accounts : List Account) (accountId : String)
    (d1 d2 : ℚ) :
    updateBalanceFirst (updateBalanceFirst accounts accountId d1) accountId d2 =
      updateBalanceFirst accounts accountId (d1 + d2) := by
  induction accounts with
  | nil => rfl
  | cons a rest ih =>
    by_cases h : a.id == accountId
    · simp [updateBalanceFirst, h, add_assoc]
    · simp [updateBalanceFirst, h, ih]

theorem updateBalanceFirst_zero (accounts : List Account) (accountId : String) :
    updateBalanceFirst accounts accountId 0 = accounts := by
  induction accounts with
  | nil => rfl
  | cons a rest ih =>
    by_cases h : a.id == accountId
    · simp [updateBalanceFirst, h]
    · simp [updateBalanceFirst, h, ih]

theorem nonneg_updateBalanceFirst (accounts : List Account) (accountId : String) (delta : ℚ)
    (h : ∀ a ∈ accounts, 0 ≤ a.balance)
    (hd : ∀ a, findAccount accounts accountId = some a → 0 ≤ a.balance + delta) :
    ∀ x ∈ updateBalanceFirst accounts accountId delta, 0 ≤ x.balance := by
  induction accounts with
  | nil => intro x hx; simp [updateBalanceFirst] at hx
  | cons a rest ih =>
    by_cases ha : a.id == accountId
    · intro x hx
      simp only [updateBalanceFirst, ha, if_pos] at hx
      rcases List.mem_cons.mp hx with hx | hx
      · subst hx
        exact hd a (by simp [findAccount, List.find?, ha])
      · exact h x (List.mem_cons_of_mem _ hx)
    · intro x hx
      simp only [updateBalanceFirst, ha, Bool.false_eq_true, not_false_eq_true, if_neg] at hx
      rcases List.mem_cons.mp hx with hx | hx
      · subst hx; exact h x (List.mem_cons_self _ _)
      · refine ih (fun b hb => h b (List.mem_cons_of_mem _ hb)) ?_ x hx
        intro b hb
        apply hd
        simpa [findAccount, List.find?, ha] using hb

/-- Characterization of the success path of `transferClerk`. -/
theorem transferClerk_spec (data : BankData) (fromAccountId toAccountId : String)
    (amount : ℚ) (description tid : String) (now : Int)
    (fa ta : Account)
    (hf : findAccount data.accounts fromAccountId = some fa)
    (ht : findAccount data.accounts toAccountId = some ta)
    (hb : ¬ fa.balance < amount) :
    transferClerk data fromAccountId toAccountId amount description tid now =
      (.ok,
        { accounts :=
            updateBalanceFirst (updateBalanceFirst data.accounts fromAccountId (-amount))
              toAccountId amount,
          transactions := data.transactions ++
            [{ id := tid ++ "-debit", type := "debit", amount := amount,
               description := description, fromAccount := some fromAccountId,
               toAccount := some toAccountId, date := now, status := some "completed" },
             { id := tid ++ "-credit", type := "credit", amount := amount,
               description := description, fromAccount := some fromAccountId,
               toAccount := some toAccountId, date := now, status := some "completed" }] }) := by
  simp [transferClerk, hf, ht, hb]

/-- A successful `transferClerk` call presupposes that both accounts were
found and the source balance was at least the amount. -/
theorem transferClerk_ok_inv (data : BankData) (fromAccountId toAccountId : String)
    (amount : ℚ) (description tid : String) (now : Int)
    (hs : (transferClerk data fromAccountId toAccountId amount description tid now).1 = .ok) :
    ∃ fa ta, findAccount data.accounts fromAccountId = some fa ∧
      findAccount data.accounts toAccountId = some ta ∧ ¬ fa.balance < amount := by
  rcases hf : findAccount data.accounts fromAccountId with _ | fa
  · simp [transferClerk, hf] at hs
  rcases ht : findAccount data.accounts toAccountId with _ | ta
  · simp [transferClerk, hf, ht] at hs
  by_cases hb : fa.balance < amount
  · simp [transferClerk, hf, ht, hb] at hs
  · exact ⟨fa, ta, rfl, rfl, hb⟩

/-- Every error branch of `transferClerk` returns the state unchanged. -/
theorem transferClerk_err_unchanged (data : BankData) (fromAccountId toAccountId : String)
    (amount : ℚ) (description tid : String) (now : Int) (msg : String)
    (h : (transferClerk data fromAccountId toAccountId amount description tid now).1 =
      .err msg) :
    (transferClerk data fromAccountId toAccountId amount description tid now).2 = data := by
  rcases hf : findAccount data.accounts fromAccountId with _ | fa
  · simp [transferClerk, hf]
  rcases ht : findAccount data.accounts toAccountId with _ | ta
  · simp [transferClerk, hf, ht]
  by_cases hb : fa.balance < amount
  · simp [transferClerk, hf, ht, hb]
  · rw [transferClerk_spec data fromAccountId toAccountId amount description tid now
      fa ta hf ht hb] at h
    simp at h

/-- Every error branch of `transferStore` returns the state unchanged. -/
theorem transferStore_err_unchanged (data : BankData) (o : TransferOptions) (now : Int)
    (msg : String)
    (h : (transferStore data o now).1 = .err msg) :
    (transferStore data o now).2 = data := by
  by_cases ha : o.amount ≤ 0
  · simp [transferStore, ha]
  rcases hp : o.paymentMethodId with _ | pmid <;>
    rcases hr : o.recipientEmail with _ | email
  all_goals
    rcases hfo : o.fromAccountId with _ | fromId <;>
      rcases hto : o.toAccountId with _ | toId
  all_goals simp only [transferStore, ha, hp, hr, hfo, hto, if_neg, reduceCtorEq] at h ⊢
  all_goals try rfl
  all_goals try (simp at h)
  all_goals
    rcases hf : findAccount data.accounts fromId with _ | fa <;>
      rcases ht : findAccount data.accounts toId with _ | ta <;>
        simp only [hf, ht] at h ⊢
  all_goals try rfl
  all_goals by_cases hb : fa.balance < o.amount <;> simp [hb] at h ⊢

/-- The double update performed by a successful internal transfer keeps all
balances non-negative, provided the amount is positive and covered by the
balance of the source account. -/
theorem nonneg_double_update (accounts : List Account) (fromAccountId toAccountId : String)
    (amount : ℚ) (fa : Account)
    (hf : findAccount accounts fromAccountId = some fa)
    (hge : amount ≤ fa.balance) (hpos : 0 < amount)
    (h0 : ∀ a ∈ accounts, 0 ≤ a.balance) :
    ∀ x ∈ updateBalanceFirst (updateBalanceFirst accounts fromAccountId (-amount))
        toAccountId amount, 0 ≤ x.balance := by
  have inner : ∀ x ∈ updateBalanceFirst accounts fromAccountId (-amount), 0 ≤ x.balance := by
    refine nonneg_updateBalanceFirst _ _ _ h0 ?_
    intro b hb
    rw [hf] at hb
    cases hb
    linarith
  refine nonneg_updateBalanceFirst _ _ _ inner ?_
  intro b hb
  have hbmem : b ∈ updateBalanceFirst accounts fromAccountId (-amount) :=
    List.mem_of_find?_eq_some (by simpa [findAccount] using hb)
  have := inner b hbmem
  linarith

/-- A `transferClerk` call with a positive amount keeps all balances
non-negative. -/
theorem transferClerk_preserves_nonneg (data : BankData)
    (fromAccountId toAccountId : String) (amount : ℚ) (description tid : String) (now : Int)
    (hpos : 0 < amount) (h0 : ∀ a ∈ data.accounts, 0 ≤ a.balance) :
    ∀ x ∈ (transferClerk data fromAccountId toAccountId amount description tid now).2.accounts,
      0 ≤ x.balance := by
  rcases hf : findAccount data.accounts fromAccountId with _ | fa
  · simpa [transferClerk, hf] using h0
  rcases ht : findAccount data.accounts toAccountId with _ | ta
  · simpa [transferClerk, hf, ht] using h0
  by_cases hb : fa.balance < amount
  · simpa [transferClerk, hf, ht, hb] using h0
  · rw [transferClerk_spec data fromAccountId toAccountId amount description tid now
      fa ta hf ht hb]
    exact nonneg_double_update data.accounts fromAccountId toAccountId amount fa hf
      (not_lt.mp hb) hpos h0

/-- Any `transferStore` call (internal, external or card payment, success or
failure) keeps all balances non-negative: the external and card branches do
not touch accounts, and the internal branch validates the amount itself. -/
theorem transferStore_preserves_nonneg (data : BankData) (o : TransferOptions) (now : Int)
    (h0 : ∀ a ∈ data.accounts, 0 ≤ a.balance) :
    ∀ x ∈ (transferStore data o now).2.accounts, 0 ≤ x.balance := by
  by_cases ha : o.amount ≤ 0
  · simpa [transferStore, ha] using h0
  have hpos : 0 < o.amount := lt_of_not_le ha
  rcases hp : o.paymentMethodId with _ | pmid <;>
    rcases hr : o.recipientEmail with _ | email
  all_goals
    rcases hfo : o.fromAccountId with _ | fromId <;>
      rcases hto : o.toAccountId with _ | toId
  all_goals simp only [transferStore, ha, hp, hr, hfo, hto, if_neg]
  all_goals try simpa using h0
  all_goals
    rcases hf : findAccount data.accounts fromId with _ | fa <;>
      rcases ht : findAccount data.accounts toId with _ | ta <;>
        simp only [hf, ht]
  all_goals try simpa using h0
  all_goals by_cases hb : fa.balance < o.amount <;> simp only [hb, if_pos, if_neg,
    not_false_eq_true, not_true_eq_false]
  all_goals try simpa using h0
  all_goals
    simpa using nonneg_double_update data.accounts fromId toId o.amount fa hf
      (not_lt.mp hb) hpos h0

/-- One step of the transfer sequence of C4: either implementation of
`transferMoney`, applied for its effect on the persisted state. -/
inductive TransferOp where
  | viaClerk (fromAccountId toAccountId : String) (amount : ℚ)
      (description tid : String) (now : Int)
  | viaStore (options : TransferOptions) (now : Int)
  deriving Repr, DecidableEq

/-- Apply a transfer operation to the persisted state, keeping the resulting
state whether the call succeeded or failed. -/
def applyTransfer (data : BankData) : TransferOp → BankData
  | .viaClerk fromAccountId toAccountId amount description tid now =>
      (transferClerk data fromAccountId toAccountId amount description tid now).2
  | .viaStore o now => (transferStore data o now).2

/-- The validity condition the spec imposes on transfers: a positive amount.
The localStorage implementation checks this itself, so only the
bankingService.js operation carries the condition. -/
def amountPositive : TransferOp → Prop
  | .viaClerk _ _ amount _ _ _ => 0 < amount
  | .viaStore _ _ => True

instance : DecidablePred amountPositive := fun op => by
  cases op <;> simp only [amountPositive] <;> infer_instance

/-- A sample state used by concrete witnesses: two accounts with balances
1000 and 500 and an empty transaction log. -/
def sampleData : BankData :=
  { accounts := [{ id := "a", balance := 1000 }, { id := "b", balance := 500 }],
    transactions := [] }

/-- Options describing an internal transfer of 250 from account a to
account b in the localStorage implementation. -/
def sampleInternalOptions : TransferOptions :=
  { fromAccountId := some "a", toAccountId := some "b", amount := 250 }

/-- A state with non-negative balances used by the C4 counterexample. -/
def negStartData : BankData :=
  { accounts := [{ id := "a", balance := 0 }, { id := "b", balance := 10 }],
    transactions := [] }

/-- A state holding a single account a with balance 100. -/
def singleAccountData : BankData :=
  { accounts := [{ id := "a", balance := 100 }], transactions := [] }

/-- Options naming the same account as source and destination. -/
def sameAccountOptions : TransferOptions :=
  { fromAccountId := some "a", toAccountId := some "a", amount := 50 }

/-- The external-transfer options of Scenario C of the spec: 50 to
friend@example.com with description lunch. -/
def extSampleOptions : TransferOptions :=
  { recipientEmail := some "friend@example.com", amount := 50,
    description := some "lunch" }

/-- A state with three transactions with distinct dates, for the pagination
witness. -/
def pageSampleData : BankData :=
  { accounts := [],
    transactions :=
      [{ id := "t1", type := "debit", amount := 5, description := "one", date := 1 },
       { id := "t2", type := "credit", amount := 7, description := "two", date := 3 },
       { id := "t3", type := "debit", amount := 2, description := "three", date := 2 }] }

section Claims

/-- Claim C1: a successful internal transfer between two existing, distinct
accounts conserves the sum of the two balances: afterwards the source holds
its old balance minus the amount, the destination its old balance plus the
amount, and the two sums agree. -/
theorem internal_transfer_conserves_balance_sum
    (data : BankData) (fromAccountId toAccountId : String) (amount : ℚ)
    (description tid : String) (now : Int)
    (hne : fromAccountId ≠ toAccountId)
    (hs : (transferClerk data fromAccountId toAccountId amount description tid now).1 = .ok) :
    ∃ bf bt,
      findBalance data fromAccountId = some bf ∧
      findBalance data toAccountId = some bt ∧
      findBalance (transferClerk data fromAccountId toAccountId amount description tid now).2
          fromAccountId = some (bf - amount) ∧
      findBalance (transferClerk data fromAccountId toAccountId amount description tid now).2
          toAccountId = some (bt + amount) ∧
      (bf - amount) + (bt + amount) = bf + bt := by
  obtain ⟨fa, ta, hf, ht, hb⟩ :=
    transferClerk_ok_inv data fromAccountId toAccountId amount description tid now hs
  refine ⟨fa.balance, ta.balance, ?_, ?_, ?_, ?_, by ring⟩
  · simp [findBalance, hf]
  · simp [findBalance, ht]
  · rw [transferClerk_spec data fromAccountId toAccountId amount description tid now
      fa ta hf ht hb]
    simp only [findBalance]
    rw [findAccount_updateBalanceFirst_ne _ toAccountId fromAccountId amount hne,
      findAccount_updateBalanceFirst_self]
    simp [hf, sub_eq_add_neg]
  · rw [transferClerk_spec data fromAccountId toAccountId amount description tid now
      fa ta hf ht hb]
    simp only [findBalance]
    rw [findAccount_updateBalanceFirst_self,
      findAccount_updateBalanceFirst_ne _ fromAccountId toAccountId (-amount)
        (fun hc => hne hc.symm)]
    simp [ht]

/-- Witness for C1: transferring 250 from account a (balance 1000) to
account b (balance 500) conserves the sum of the two balances. -/
theorem internal_transfer_conserves_balance_sum_witness :
    ∃ bf bt,
      findBalance sampleData "a" = some bf ∧
      findBalance sampleData "b" = some bt ∧
      findBalance (transferClerk sampleData "a" "b" 250 "rent" "t1" 0).2 "a" =
        some (bf - 250) ∧
      findBalance (transferClerk sampleData "a" "b" 250 "rent" "t1" 0).2 "b" =
        some (bt + 250) ∧
      (bf - 250) + (bt + 250) = bf + bt :=
  internal_transfer_conserves_balance_sum sampleData "a" "b" 250 "rent" "t1" 0
    (by decide) (by decide)

/-- Claim C2: when an internal transfer fails with the insufficient-funds
error, the persisted state (accounts and transaction log alike) is exactly
the state before the call, in both implementations of the service. -/
theorem insufficient_funds_error_no_mutation
    (data : BankData) (fromAccountId toAccountId : String) (amount : ℚ)
    (description tid : String) (now : Int) (o : TransferOptions) (now2 : Int) :
    ((transferClerk data fromAccountId toAccountId amount description tid now).1 =
        .err "Insufficient funds" →
      (transferClerk data fromAccountId toAccountId amount description tid now).2 = data) ∧
    ((transferStore data o now2).1 = .err "Insufficient funds" →
      (transferStore data o now2).2 = data) :=
  ⟨transferClerk_err_unchanged data fromAccountId toAccountId amount description tid now _,
   transferStore_err_unchanged data o now2 _⟩

/-- Witness for C2: attempting to transfer 1500 from account a (balance
1000) fails with the insufficient-funds error and leaves the state intact. -/
theorem insufficient_funds_error_no_mutation_witness :
    (transferClerk sampleData "a" "b" 1500 "big" "t1" 0).2 = sampleData :=
  (insufficient_funds_error_no_mutation sampleData "a" "b" 1500 "big" "t1" 0
    { amount := 1 } 0).1 (by decide)

/-- Counterexample to C3: in the localStorage implementation a successful
internal transfer of 250 from a to b records exactly ONE transaction, of
type "transfer", not two debit/credit transactions. -/
theorem store_internal_transfer_records_one_transaction :
    (transferStore sampleData sampleInternalOptions 7).1 = .ok ∧
    (transferStore sampleData sampleInternalOptions 7).2.transactions.length = 1 ∧
    ∀ t ∈ (transferStore sampleData sampleInternalOptions 7).2.transactions,
      t.type = "transfer" := by decide

/-- Claim C3 (amended to the bankingService.js implementation): a successful
internal transfer appends exactly two transactions, one of type debit and
one of type credit, whose ids share the correlation id `tid`, and decrements
the source balance and increments the destination balance by the amount. -/
theorem internal_transfer_records_debit_and_credit
    (data : BankData) (fromAccountId toAccountId : String) (amount : ℚ)
    (description tid : String) (now : Int) (fa ta : Account)
    (hf : findAccount data.accounts fromAccountId = some fa)
    (ht : findAccount data.accounts toAccountId = some ta)
    (hb : ¬ fa.balance < amount)
    (hne : fromAccountId ≠ toAccountId) :
    (transferClerk data fromAccountId toAccountId amount description tid now).1 = .ok ∧
    (transferClerk data fromAccountId toAccountId amount description tid now).2.transactions =
      data.transactions ++
        [{ id := tid ++ "-debit", type := "debit", amount := amount,
           description := description, fromAccount := some fromAccountId,
           toAccount := some toAccountId, date := now, status := some "completed" },
         { id := tid ++ "-credit", type := "credit", amount := amount,
           description := description, fromAccount := some fromAccountId,
           toAccount := some toAccountId, date := now, status := some "completed" }] ∧
    findBalance (transferClerk data fromAccountId toAccountId amount description tid now).2
      fromAccountId = some (fa.balance - amount) ∧
    findBalance (transferClerk data fromAccountId toAccountId amount description tid now).2
      toAccountId = some (ta.balance + amount) := by
  rw [transferClerk_spec data fromAccountId toAccountId amount description tid now
    fa ta hf ht hb]
  refine ⟨rfl, rfl, ?_, ?_⟩
  · simp only [findBalance]
    rw [findAccount_updateBalanceFirst_ne _ toAccountId fromAccountId amount hne,
      findAccount_updateBalanceFirst_self]
    simp [hf, sub_eq_add_neg]
  · simp only [findBalance]
    rw [findAccount_updateBalanceFirst_self,
      findAccount_updateBalanceFirst_ne _ fromAccountId toAccountId (-amount)
        (fun hc => hne hc.symm)]
    simp [ht]

/-- Witness for C3 (amended): transferring 250 from a to b in the sample
state appends exactly the debit and credit records and moves the balances. -/
theorem internal_transfer_records_debit_and_credit_witness :
    (transferClerk sampleData "a" "b" 250 "rent" "t1" 9).1 = .ok ∧
    (transferClerk sampleData "a" "b" 250 "rent" "t1" 9).2.transactions =
      sampleData.transactions ++
        [{ id := "t1" ++ "-debit", type := "debit", amount := 250,
           description := "rent", fromAccount := some "a",
           toAccount := some "b", date := 9, status := some "completed" },
         { id := "t1" ++ "-credit", type := "credit", amount := 250,
           description := "rent", fromAccount := some "a",
           toAccount := some "b", date := 9, status := some "completed" }] ∧
    findBalance (transferClerk sampleData "a" "b" 250 "rent" "t1" 9).2 "a" =
      some ((1000 : ℚ) - 250) ∧
    findBalance (transferClerk sampleData "a" "b" 250 "rent" "t1" 9).2 "b" =
      some ((500 : ℚ) + 250) :=
  internal_transfer_records_debit_and_credit sampleData "a" "b" 250 "rent" "t1" 9
    { id := "a", balance := 1000 } { id := "b", balance := 500 }
    (by decide) (by decide) (by decide) (by decide)

/-- Counterexample to C4: bankingService.js does not validate the amount, so
a single successful transfer of the negative amount -20 from b to a drives
the balance of account a to -20 although every starting balance was
non-negative. -/
theorem clerk_negative_amount_breaks_nonneg :
    (∀ a ∈ negStartData.accounts, 0 ≤ a.balance) ∧
    (transferClerk negStartData "b" "a" (-20) "drain" "t1" 0).1 = .ok ∧
    findBalance (transferClerk negStartData "b" "a" (-20) "drain" "t1" 0).2 "a" =
      some (-20) ∧
    ∃ a ∈ (transferClerk negStartData "b" "a" (-20) "drain" "t1" 0).2.accounts,
      a.balance < 0 := by
  have hspec := transferClerk_spec negStartData "b" "a" (-20) "drain" "t1" 0
    { id := "b", balance := 10 } { id := "a", balance := 0 }
    (by decide) (by decide) (by decide)
  refine ⟨by decide, ?_, ?_, ?_⟩
  · rw [hspec]
  · rw [hspec]
    simp only [findBalance, findAccount, negStartData, updateBalanceFirst, List.find?]
    norm_num
  · rw [hspec]
    simp only [negStartData, updateBalanceFirst, List.find?]
    norm_num

/-- Claim C4 (amended): starting from a state in which every balance is
non-negative, any sequence of transfer operations whose amounts are positive
(a condition the localStorage implementation enforces itself, so it binds
only the bankingService.js operations) leaves every account balance
non-negative. -/
theorem transfer_sequences_preserve_nonneg_balances (ops : List TransferOp)
    (data : BankData)
    (h0 : ∀ a ∈ data.accounts, 0 ≤ a.balance)
    (hops : ∀ op ∈ ops, amountPositive op) :
    ∀ a ∈ (ops.foldl applyTransfer data).accounts, 0 ≤ a.balance := by
  induction ops generalizing data with
  | nil => simpa using h0
  | cons op rest ih =>
    simp only [List.foldl_cons]
    refine ih (applyTransfer data op) ?_ (fun o ho => hops o (List.mem_cons_of_mem _ ho))
    cases op with
    | viaClerk fromAccountId toAccountId amount description tid now =>
        exact transferClerk_preserves_nonneg data fromAccountId toAccountId amount
          description tid now (hops _ (List.mem_cons_self _ _)) h0
    | viaStore o now => exact transferStore_preserves_nonneg data o now h0

/-- Witness for C4 (amended): after one clerk transfer of 250 from a to b in
the sample state, the balance of account a (now 750) is non-negative. -/
theorem transfer_sequences_preserve_nonneg_balances_witness :
    (0 : ℚ) ≤ ({ id := "a", balance := 750 } : Account).balance :=
  transfer_sequences_preserve_nonneg_balances
    [TransferOp.viaClerk "a" "b" 250 "rent" "t1" 0] sampleData
    (by decide) (by decide) { id := "a", balance := 750 }
    (by
      rw [List.foldl_cons, List.foldl_nil]
      show _ ∈ (transferClerk sampleData "a" "b" 250 "rent" "t1" 0).2.accounts
      rw [transferClerk_spec sampleData "a" "b" 250 "rent" "t1" 0
        { id := "a", balance := 1000 } { id := "b", balance := 500 }
        (by decide) (by decide) (by decide)]
      simp only [sampleData, updateBalanceFirst]
      norm_num
      simp)

/-- Counterexample to C5: a transfer whose source and destination account ids
are equal is not rejected by the localStorage implementation: it succeeds and
records a transaction. -/
theorem store_same_account_transfer_succeeds :
    (transferStore singleAccountData sameAccountOptions 3).1 = .ok ∧
    (transferStore singleAccountData sameAccountOptions 3).2.transactions.length = 1 := by
  decide

/-- Claim C5 (amended): a transfer called with amount at most 0 fails with
the validation error of the localStorage implementation and the state is
returned unchanged: no balance update, no transaction.  Equality of source
and destination account id is not validated and does not cause a failure. -/
theorem nonpositive_amount_rejected (data : BankData) (o : TransferOptions) (now : Int)
    (h : o.amount ≤ 0) :
    transferStore data o now = (.err "Invalid transfer parameters", data) := by
  simp [transferStore, h]

/-- Witness for C5 (amended): an internal transfer of amount 0 is rejected
with the validation error and the state is unchanged. -/
theorem nonpositive_amount_rejected_witness :
    transferStore sampleData
      { fromAccountId := some "a", toAccountId := some "b", amount := 0 } 5 =
      (.err "Invalid transfer parameters", sampleData) :=
  nonpositive_amount_rejected sampleData
    { fromAccountId := some "a", toAccountId := some "b", amount := 0 } 5 (by decide)

/-- Counterexample to C6: the transaction recorded for an external transfer
of 50 carries the stored amount -50 (the sign carries the direction), not
the unsigned magnitude 50. -/
theorem external_transfer_amount_is_negated :
    ((transferStore sampleData extSampleOptions 4).2.transactions.map
        fun t => t.amount) = [-50] ∧
    ((transferStore sampleData extSampleOptions 4).2.transactions.map
        fun t => t.type) = ["external_transfer"] ∧
    ((-50 : ℚ) ≠ 50) := by decide

/-- Claim C6 (amended): an external transfer of a positive amount records
exactly one transaction, prepended to the log, of type external_transfer,
with stored amount equal to the NEGATED amount, the recipient email embedded
in the description text, category Transfer, and no account is modified. -/
theorem external_transfer_records_one_debit (data : BankData) (email : String)
    (amount : ℚ) (description : Option String) (now : Int)
    (hpos : 0 < amount) :
    transferStore data
        { recipientEmail := some email, amount := amount, description := description }
        now =
      (.ok,
        { data with transactions :=
            { id := "transfer-" ++ toString now, type := "external_transfer",
              amount := -amount,
              description := "Transfer to " ++ email ++ descSuffix description,
              category := some "Transfer", date := now } :: data.transactions }) := by
  simp [transferStore, not_le.mpr hpos]

/-- Witness for C6 (amended): the Scenario C call records exactly one
external-transfer transaction with amount -50 and leaves accounts alone. -/
theorem external_transfer_records_one_debit_witness :
    transferStore sampleData
        { recipientEmail := some "friend@example.com", amount := 50,
          description := some "lunch" } 4 =
      (.ok,
        { sampleData with transactions :=
            { id := "transfer-" ++ toString (4 : Int), type := "external_transfer",
              amount := -50,
              description := "Transfer to " ++ "friend@example.com" ++
                descSuffix (some "lunch"),
              category := some "Transfer", date := 4 } :: sampleData.transactions }) :=
  external_transfer_records_one_debit sampleData "friend@example.com" 50 (some "lunch") 4
    (by decide)

/-- Claim C7: evaluation at the failing input.  `addDebitCard` with a valid
card number and cvv "123" persists a card record that still carries the
submitted cvv — only the card number is deleted before storing, so the
claimed invariant that no stored card contains the CVV is violated by the
code. -/
theorem addDebitCard_stores_cvv :
    (addDebitCard []
        { cardNumber := "4242424242424242", cardholderName := "John Doe",
          expiryDate := "12/25", cvv := "123" } "1").2 =
      [{ id := "1", lastFourDigits := "4242", cardholderName := "John Doe",
         expiryDate := "12/25", cvv := "123" }] ∧
    ("123" : String) ≠ "" := by decide

/-- Claim C10: `addDebitCard` stores a card exactly when the Luhn checksum
of the digit string is divisible by 10; on checksum failure it returns the
error Invalid card number and the stored list is unchanged; and an input
without any digit has checksum 0 and is accepted. -/
theorem addDebitCard_accepts_iff_luhn (cards : List StoredCard) (input : CardInput)
    (now : String) :
    (addDebitCard cards input now =
        (.ok (storedCardOf input now), cards ++ [storedCardOf input now]) ↔
      luhnSum (luhnDigits input.cardNumber).reverse false % 10 = 0) ∧
    (luhnSum (luhnDigits input.cardNumber).reverse false % 10 ≠ 0 →
      addDebitCard cards input now = (.err "Invalid card number", cards)) ∧
    (luhnDigits input.cardNumber = [] →
      addDebitCard cards input now =
        (.ok (storedCardOf input now), cards ++ [storedCardOf input now])) := by
  by_cases h : luhnSum (luhnDigits input.cardNumber).reverse false % 10 = 0
  · refine ⟨?_, fun hc => absurd h hc, fun _ => ?_⟩
    · simp [addDebitCard, isValidCardNumber, h, storedCardOf]
    · simp [addDebitCard, isValidCardNumber, h, storedCardOf]
  · refine ⟨?_, fun _ => ?_, fun hd => ?_⟩
    · simp [addDebitCard, isValidCardNumber, h, storedCardOf]
    · simp [addDebitCard, isValidCardNumber, h]
    · exact absurd (by simp [hd, luhnSum]) h

/-- Witness for C10: a number failing the checksum is rejected with the
Invalid card number error and nothing is stored. -/
theorem addDebitCard_accepts_iff_luhn_witness :
    addDebitCard []
        { cardNumber := "4242424242424241", cardholderName := "John Doe",
          expiryDate := "12/25", cvv := "123" } "1" =
      (.err "Invalid card number", []) :=
  (addDebitCard_accepts_iff_luhn []
      { cardNumber := "4242424242424241", cardholderName := "John Doe",
        expiryDate := "12/25", cvv := "123" } "1").2.1 (by decide)

/-- The fold of `getAccountBalance` splits into the credit-sum minus the
non-credit sum, for every starting value. -/
theorem foldl_balanceStep (txs : List Txn) :
    ∀ init : ℚ, txs.foldl balanceStep init = init + creditSum txs - nonCreditSum txs := by
  induction txs with
  | nil => intro init; simp [creditSum, nonCreditSum]
  | cons t ts ih =>
    intro init
    by_cases h : t.type = "credit"
    · simp only [List.foldl_cons, ih, balanceStep, h, if_pos, creditSum, nonCreditSum,
        List.filter_cons, beq_self_eq_true, Bool.not_true, Bool.false_eq_true,
        if_neg, not_false_eq_true, List.map_cons, List.sum_cons, beq_iff_eq]
      ring
    · have hb : (t.type == "credit") = false := by simpa using h
      simp only [List.foldl_cons, ih, balanceStep, h, if_neg, creditSum, nonCreditSum,
        List.filter_cons, hb, Bool.not_false, Bool.false_eq_true, not_false_eq_true,
        if_pos, List.map_cons, List.sum_cons]
      ring

/-- Claim C8: for a non-null user, `getAccountBalance` returns 1000 plus the
sum of the credit amounts minus the sum of the non-credit amounts of the
transaction log. -/
theorem getAccountBalance_base_1000 (user : String) (data : BankData) :
    getAccountBalance (some user) data =
      .ok (1000 + creditSum data.transactions - nonCreditSum data.transactions) := by
  simp only [getAccountBalance]
  exact congrArg Except.ok (foldl_balanceStep data.transactions 1000)

/-- The sorted list is a permutation of the input list. -/
theorem perm_sortByDateDesc (txs : List Txn) : (sortByDateDesc txs).Perm txs :=
  List.perm_insertionSort txGe txs

/-- The sorted list is pairwise descending by date. -/
theorem pairwise_sortByDateDesc (txs : List Txn) :
    List.Pairwise txGe (sortByDateDesc txs) :=
  List.sorted_insertionSort txGe txs

/-- Concatenating the consecutive chunks of width `limit` recovers a front
segment of the list. -/
theorem flatMap_range_chunks {α : Type} (limit : Nat) (l : List α) :
    ∀ n : Nat, ((List.range n).flatMap fun i => (l.drop (i * limit)).take limit) =
      l.take (n * limit) := by
  intro n
  induction n with
  | zero => simp
  | succ n ih =>
    rw [List.range_succ, List.flatMap_append, ih]
    simp only [List.flatMap_cons, List.flatMap_nil, List.append_nil]
    rw [Nat.succ_mul, List.take_add]

/-- The page count `Math.ceil(len / limit)` covers the whole list. -/
theorem length_le_ceil_mul (len limit : Nat) (h : 1 ≤ limit) :
    len ≤ ((len + limit - 1) / limit) * limit := by
  have hm := Nat.div_add_mod (len + limit - 1) limit
  have hr : (len + limit - 1) % limit < limit := Nat.mod_lt _ (by omega)
  rw [mul_comm]
  generalize hX : limit * ((len + limit - 1) / limit) = X at hm ⊢
  omega

/-- Claim C9: for every owner state (with the random mock initialization of
an empty log abstracted as `mocks`) and every page size of at least 1,
concatenating the transaction lists of all pages `1..totalPages` is a
permutation of the full effective transaction set — nothing missing, nothing
duplicated — and every page is sorted by date descending. -/
theorem pagination_complete_and_sorted (data : BankData) (mocks : List Txn)
    (limit : Nat) (hlimit : 1 ≤ limit) :
    ((List.range (getRecentTransactions data mocks 1 limit).totalPages).flatMap
        fun i => (getRecentTransactions data mocks (i + 1) limit).transactions).Perm
      (effectiveTxs data mocks) ∧
    ∀ page : Nat,
      List.Pairwise txGe (getRecentTransactions data mocks page limit).transactions := by
  constructor
  · have hpages :
        ((List.range (getRecentTransactions data mocks 1 limit).totalPages).flatMap
          fun i => (getRecentTransactions data mocks (i + 1) limit).transactions) =
        ((List.range
            (((effectiveTxs data mocks).length + limit - 1) / limit)).flatMap
          fun i => ((sortByDateDesc (effectiveTxs data mocks)).drop (i * limit)).take
            limit) := by
      simp [getRecentTransactions]
    rw [hpages, flatMap_range_chunks]
    have hlen : (sortByDateDesc (effectiveTxs data mocks)).length =
        (effectiveTxs data mocks).length :=
      (perm_sortByDateDesc (effectiveTxs data mocks)).length_eq
    rw [List.take_of_length_le]
    · exact perm_sortByDateDesc (effectiveTxs data mocks)
    · rw [hlen]
      exact length_le_ceil_mul (effectiveTxs data mocks).length limit hlimit
  · intro page
    have hsub :
        (getRecentTransactions data mocks page limit).transactions.Sublist
          (sortByDateDesc (effectiveTxs data mocks)) := by
      simp only [getRecentTransactions]
      exact (List.take_sublist _ _).trans (List.drop_sublist _ _)
    exact List.Pairwise.sublist hsub (pairwise_sortByDateDesc (effectiveTxs data mocks))

/-- Witness for C9: three stored transactions with page size 2 give two
pages whose concatenation is a permutation of the stored set, each page
sorted by date descending. -/
theorem pagination_complete_and_sorted_witness :
    ((List.range (getRecentTransactions pageSampleData [] 1 2).totalPages).flatMap
        fun i => (getRecentTransactions pageSampleData [] (i + 1) 2).transactions).Perm
      (effectiveTxs pageSampleData []) ∧
    ∀ page : Nat,
      List.Pairwise txGe (getRecentTransactions pageSampleData [] page 2).transactions :=
  pagination_complete_and_sorted pageSampleData [] 2 (by decide)

end Claims

end Banking
